import Mathlib

/-!
Verification development for the psdfile-python binding layer
(`src/bindings.cpp`): a shallow embedding of the `PythonPSD` class and its
methods, with the external psdparse library (`psd::PSDFile`, the parser and
the pixel renderers) modelled from the spec and abstracted as explicit
function parameters where the binding merely calls into it.
-/

/-- Blend modes, from the `psd::BlendMode` enumeration exported at the bottom
of `bindings.cpp` (23 values, NORMAL through DIVIDE). -/
inductive BlendMode where
  | NORMAL | DARKEN | MULTIPLY | COLOR_BURN | LINEAR_BURN
  | LIGHTEN | SCREEN | COLOR_DODGE | LINEAR_DODGE | OVERLAY
  | SOFT_LIGHT | HARD_LIGHT | VIVID_LIGHT | LINEAR_LIGHT | PIN_LIGHT
  | HARD_MIX | DIFFERENCE | EXCLUSION | DISSOLVE | DARKER_COLOR
  | LIGHTER_COLOR | SUBTRACT | DIVIDE
deriving DecidableEq, Repr

/-- The rendering modes passed to `getLayerImage`
(`psd::IMAGE_MODE_MASK / _IMAGE / _MASKEDIMAGE`). -/
inductive ImageMode where
  | mask | image | maskedimage
deriving DecidableEq, Repr

/-- `convBlendModeToString`, the helper lambda inside
`PythonPSD::getLayerInfo`: it switches on the blend mode and returns a
symbolic name for 14 of the modes; every other mode falls through the
`default:` arm and is reported as `"normal"`. -/
def convBlendModeToString : BlendMode → String
  | .NORMAL => "normal"
  | .DARKEN => "darken"
  | .MULTIPLY => "multiply"
  | .COLOR_BURN => "color_burn"
  | .LINEAR_BURN => "linear_burn"
  | .LIGHTEN => "lighten"
  | .SCREEN => "screen"
  | .COLOR_DODGE => "color_dodge"
  | .LINEAR_DODGE => "linear_dodge"
  | .OVERLAY => "overlay"
  | .SOFT_LIGHT => "soft_light"
  | .HARD_LIGHT => "hard_light"
  | .DIFFERENCE => "difference"
  | .EXCLUSION => "exclusion"
  | _ => "normal"

/-- The spec-side naming of the full enumerated set of 23 blend modes
(spec section 3, "blend mode (enumerated set: normal, darken, multiply,
color-burn, ...)"), spelled with the underscore convention the binding's own
strings use.  This is the refinement reference that `convBlendModeToString`
is compared against. -/
def specBlendModeName : BlendMode → String
  | .NORMAL => "normal"
  | .DARKEN => "darken"
  | .MULTIPLY => "multiply"
  | .COLOR_BURN => "color_burn"
  | .LINEAR_BURN => "linear_burn"
  | .LIGHTEN => "lighten"
  | .SCREEN => "screen"
  | .COLOR_DODGE => "color_dodge"
  | .LINEAR_DODGE => "linear_dodge"
  | .OVERLAY => "overlay"
  | .SOFT_LIGHT => "soft_light"
  | .HARD_LIGHT => "hard_light"
  | .VIVID_LIGHT => "vivid_light"
  | .LINEAR_LIGHT => "linear_light"
  | .PIN_LIGHT => "pin_light"
  | .HARD_MIX => "hard_mix"
  | .DIFFERENCE => "difference"
  | .EXCLUSION => "exclusion"
  | .DISSOLVE => "dissolve"
  | .DARKER_COLOR => "darker_color"
  | .LIGHTER_COLOR => "lighter_color"
  | .SUBTRACT => "subtract"
  | .DIVIDE => "divide"

/-- The 14 blend modes that `convBlendModeToString` handles explicitly
(every other mode takes the `default:` arm). -/
def handledBlendModes : List BlendMode :=
  [.NORMAL, .DARKEN, .MULTIPLY, .COLOR_BURN, .LINEAR_BURN, .LIGHTEN,
   .SCREEN, .COLOR_DODGE, .LINEAR_DODGE, .OVERLAY, .SOFT_LIGHT,
   .HARD_LIGHT, .DIFFERENCE, .EXCLUSION]

/-- The PSD file header (`psd::PSDFile::header` as read by
`getBasicInfo`): width, height, channel count, bit depth, color mode.
Field types follow the binding, which exposes them as Python ints. -/
structure Header where
  width : Int := 0
  height : Int := 0
  channels : Int := 0
  depth : Int := 0
  mode : Int := 0
deriving DecidableEq, Repr

/-- A layer's mask sub-record (`lay.extraData.layerMask` as read by
`getLayerData`): its own bounds and the declared default fill color.
A layer with no mask sub-record carries the zero-initialised record
(width = height = 0), which is exactly the degenerate case the spec
defines ("if no mask is present, or the mask has zero width/height"). -/
structure LayerMask where
  top : Int := 0
  left : Int := 0
  width : Int := 0
  height : Int := 0
  defaultColor : Nat := 0
deriving DecidableEq, Repr

/-- Per-layer layer-comp membership record (`psd::LayerCompInfo` as read by
`getLayerInfo`): comp id, offsets, enabled flag. -/
structure LayerCompInfo where
  id : Int := 0
  offsetX : Int := 0
  offsetY : Int := 0
  isEnabled : Bool := false
deriving DecidableEq, Repr

/-- One layer record (`psd::LayerInfo`), with the fields the binding reads:
bounds, derived width/height, opacities, blend mode, layer type, clipping,
the status-flags bitset, layer id (−1 = unassigned), ASCII and Unicode
names, channel id list, the mask sub-record, the parent back-reference
(modelled as the parent folder's layer id, which is the only thing the
binding observes through the pointer), and layer-comp membership. -/
structure LayerInfo where
  top : Int := 0
  left : Int := 0
  bottom : Int := 0
  right : Int := 0
  width : Int := 0
  height : Int := 0
  opacity : Nat := 0
  fill_opacity : Nat := 0
  blendMode : BlendMode := .NORMAL
  layerType : Int := 0
  clipping : Nat := 0
  flags : Nat := 0
  layerId : Int := 0
  layerName : String := ""
  layerNameUnicode : String := ""
  channels : List Int := []
  layerMask : LayerMask := {}
  parent : Option Int := none
  layerComps : List (Int × LayerCompInfo) := []
deriving DecidableEq, Repr

/-- Default layer record used for guarded list access. -/
def dLay : LayerInfo := {}

/-- Modelled from the spec: `psd::Channel::isMaskChannel()` — a channel is a
mask channel when its id is the user-mask (−2) or real-user-mask (−3) id
(spec section 3: channel id "user-mask/real-user-mask"). -/
def isMaskChannel (id : Int) : Bool :=
  id == -2 || id == -3

/-- Modelled from the spec: `psd::LayerInfo::isVisible()` — visibility is
derived from the layer's flags bitfield (bit 1 set means hidden). -/
def layerIsVisible (l : LayerInfo) : Bool :=
  l.flags &&& 2 == 0

/-- Modelled from the spec: `psd::LayerInfo::isObsolete()` — the obsolete
status flag packed in the flags bitfield (bit 2). -/
def layerIsObsolete (l : LayerInfo) : Bool :=
  l.flags &&& 4 != 0

/-- Modelled from the spec: `psd::LayerInfo::isTransparencyProtected()` —
bit 0 of the flags bitfield. -/
def layerIsTransparencyProtected (l : LayerInfo) : Bool :=
  l.flags &&& 1 != 0

/-- Modelled from the spec: `psd::LayerInfo::isPixelDataIrrelevant()` —
bit 4 of the flags bitfield. -/
def layerIsPixelDataIrrelevant (l : LayerInfo) : Bool :=
  l.flags &&& 16 != 0

/-- The document model owned by `psd::PSDFile` and populated by a decode:
header, flat layer list, presence of the merged/composite image block
(`imageData`, a pointer in the C++, observed only for null-ness by
`getBlend`), and the resource state the binding reads (slice enabled flag,
last applied layer-comp id). -/
structure DocModel where
  header : Header := {}
  layerList : List LayerInfo := []
  imageData : Bool := false
  sliceEnabled : Bool := false
  lastAppliedCompId : Int := 0
deriving DecidableEq, Repr

/-- The state of a `PythonPSD` handle: the `isLoaded` flag, the document
model inherited from `psd::PSDFile`, and the binding's own `fileData`
byte buffer. -/
structure PSDState where
  isLoaded : Bool := false
  model : DocModel := {}
  fileData : List Nat := []
deriving DecidableEq, Repr

/-- The empty (unloaded) handle state. -/
def emptyState : PSDState := {}

/-- `PythonPSD::clearData`: calls `psd::PSDFile::clearData()` and clears
`fileData`.  Modelled from the spec: `psd::PSDFile::clearData` is not in the
binding source; per the spec's lifecycle ("loading a new file/byte buffer
fully resets all of the above", "the partially built model is discarded in
full") it resets the whole model, so the composed operation maps every
state to the empty state. -/
def clearData (_ : PSDState) : PSDState := emptyState

/-- `PythonPSD::loadFromBytes`.  The psdparse parser and `processParsed`
are not in the binding source, so they are explicit parameters:
`parseFn bytes m` returns the parser's success flag, the cursor position
after parsing (the C++ checks `begin == end`), and the (possibly partially)
populated model; `processFn m` is `processParsed()`, returning its success
flag and the post-processed model.  The binding itself: clear first, copy
the bytes into `fileData`, parse, set `isLoaded` only when the parse
succeeded with the cursor at the end and post-processing succeeded, and
clear again whenever the load did not succeed. -/
def loadFromBytes (parseFn : List Nat → DocModel → Bool × Nat × DocModel)
    (processFn : DocModel → Bool × DocModel)
    (s : PSDState) (bytes : List Nat) : PSDState × Bool :=
  let s1 : PSDState := { clearData s with fileData := bytes }
  let pr := parseFn bytes s1.model
  let afterParse : PSDState := { s1 with model := pr.2.2 }
  let st : PSDState :=
    if pr.1 = true ∧ pr.2.1 = bytes.length then
      let q := processFn afterParse.model
      { afterParse with isLoaded := q.1, model := q.2 }
    else afterParse
  if st.isLoaded = true then (st, true) else (clearData st, false)

/-- `PythonPSD::getBasicInfo`: an empty dict when nothing is loaded,
otherwise the six header-derived entries, modelled as an association
list in insertion order. -/
def getBasicInfo (s : PSDState) : List (String × Int) :=
  if s.isLoaded = false then []
  else
    [("width", s.model.header.width),
     ("height", s.model.header.height),
     ("channels", s.model.header.channels),
     ("depth", s.model.header.depth),
     ("color_mode", s.model.header.mode),
     ("layer_count", (s.model.layerList.length : Int))]

/-- One read-only property from the `PYBIND11_MODULE` block: look the key up
in `getBasicInfo()` and fall back to −1 when absent. -/
def basicAttr (s : PSDState) (key : String) : Int :=
  match (getBasicInfo s).lookup key with
  | some v => v
  | none => -1

/-- The shared guard of every per-layer accessor:
`!isLoaded || layerNo < 0 || layerNo >= layerList.size()`. -/
def badReq (s : PSDState) (layerNo : Int) : Bool :=
  !s.isLoaded || decide (layerNo < 0) ||
    decide ((s.model.layerList.length : Int) ≤ layerNo)

/-- `layerList[layerNo]`, guarded by `badReq` at every use site. -/
def layerAt (s : PSDState) (layerNo : Int) : LayerInfo :=
  s.model.layerList.getD layerNo.toNat dLay

/-- `PythonPSD::getLayerType`. -/
def getLayerType (s : PSDState) (layerNo : Int) : Except String Int :=
  if badReq s layerNo then
    .error "Invalid layer number or no PSD data loaded"
  else
    .ok (layerAt s layerNo).layerType

/-- `PythonPSD::getLayerName`: the Unicode name takes precedence when
non-empty (the UTF conversion `wstring_to_string` is modelled as the
identity on the already-Unicode model string). -/
def getLayerName (s : PSDState) (layerNo : Int) : Except String String :=
  if badReq s layerNo then
    .error "Invalid layer number or no PSD data loaded"
  else
    let lay := layerAt s layerNo
    if lay.layerNameUnicode ≠ "" then .ok lay.layerNameUnicode
    else .ok lay.layerName

/-- The Python dict built by `PythonPSD::getLayerInfo`, with one field per
dict entry the binding assigns (the two optional entries are `Option`s). -/
structure LayerInfoDict where
  top : Int
  left : Int
  bottom : Int
  right : Int
  width : Int
  height : Int
  opacity : Nat
  fill_opacity : Nat
  mask : Bool
  type : String
  layer_type : Int
  blend_mode : BlendMode
  visible : Bool
  name : String
  clipping : Nat
  layer_id : Int
  obsolete : Bool
  transparency_protected : Bool
  pixel_data_irrelevant : Bool
  group_layer_id : Option Int
  layer_comp : Option (List (Int × LayerCompInfo))
deriving DecidableEq, Repr

/-- `PythonPSD::getLayerInfo`: the same guard as the other per-layer
accessors, then the per-layer summary dict.  `mask` is the scan of the
channel list for a mask channel; `type` is the symbolic blend-mode name via
`convBlendModeToString`; `blend_mode` is the raw blend-mode value;
`group_layer_id` is present exactly when the parent back-reference is
non-null; `layer_comp` is present exactly when the membership map is
non-empty. -/
def getLayerInfo (s : PSDState) (layerNo : Int) :
    Except String LayerInfoDict :=
  if badReq s layerNo then
    .error "Invalid layer number or no PSD data loaded"
  else
    let lay := layerAt s layerNo
    .ok
      { top := lay.top
        left := lay.left
        bottom := lay.bottom
        right := lay.right
        width := lay.width
        height := lay.height
        opacity := lay.opacity
        fill_opacity := lay.fill_opacity
        mask := lay.channels.any isMaskChannel
        type := convBlendModeToString lay.blendMode
        layer_type := lay.layerType
        blend_mode := lay.blendMode
        visible := layerIsVisible lay
        name := if lay.layerNameUnicode ≠ "" then lay.layerNameUnicode
                else lay.layerName
        clipping := lay.clipping
        layer_id := lay.layerId
        obsolete := layerIsObsolete lay
        transparency_protected := layerIsTransparencyProtected lay
        pixel_data_irrelevant := layerIsPixelDataIrrelevant lay
        group_layer_id := lay.parent
        layer_comp := if lay.layerComps = [] then none
                      else some lay.layerComps }

/-- A `height × width × 4` NumPy byte array, flattened row-major
(y outer, x middle, channel inner) exactly as the binding's copy loop
writes it. -/
structure PixelBuffer where
  height : Nat
  width : Nat
  data : List Nat
deriving DecidableEq, Repr

/-- Build the `height × width × 4` array by the binding's triple copy loop,
reading byte `(y, x, c)` from the rendered buffer `f`. -/
def mkBuffer (f : Nat → Nat → Nat → Nat) (height width : Nat) :
    PixelBuffer :=
  ⟨height, width,
   (List.range height).flatMap fun y =>
     (List.range width).flatMap fun x =>
       (List.range 4).map fun c => f y x c⟩

/-- `PythonPSD::getLayerData`.  The pixel renderer `getLayerImage` lives in
the psdparse library, not in the binding source, so it is a parameter:
`render lay m y x c` is the byte the library writes at row `y`, column `x`,
channel `c` when rendering layer `lay` in image mode `m`.  The binding:
guard, then select mode/bounds — `"mask"` uses the mask sub-record's bounds
and returns the 1×1 `(defaultColor, defaultColor, defaultColor, 255)`
placeholder when those bounds are degenerate, `"raw"` and every other mode
string use the layer's own bounds — then reject zero width/height, then
copy the rendered buffer. -/
def getLayerData (render : LayerInfo → ImageMode → Nat → Nat → Nat → Nat)
    (s : PSDState) (layerNo : Int) (mode : String) :
    Except String PixelBuffer :=
  if badReq s layerNo then
    .error "Invalid layer number or no PSD data loaded"
  else
    let lay := layerAt s layerNo
    let mask := lay.layerMask
    if mode = "mask" ∧ (mask.width ≤ 0 ∨ mask.height ≤ 0) then
      .ok ⟨1, 1, [mask.defaultColor, mask.defaultColor,
                  mask.defaultColor, 255]⟩
    else
      let sel : ImageMode × Int × Int :=
        if mode = "mask" then (.mask, mask.width, mask.height)
        else if mode = "raw" then (.image, lay.width, lay.height)
        else (.maskedimage, lay.width, lay.height)
      if sel.2.1 ≤ 0 ∨ sel.2.2 ≤ 0 then
        .error "Layer has zero width or height"
      else
        .ok (mkBuffer (render lay sel.1) sel.2.2.toNat sel.2.1.toNat)

/-- `getLayerData` as a state transformer: the method reads the document
model but writes no member of the handle, so the state component is
returned unchanged. -/
def getLayerDataS (render : LayerInfo → ImageMode → Nat → Nat → Nat → Nat)
    (s : PSDState) (layerNo : Int) (mode : String) :
    PSDState × Except String PixelBuffer :=
  (s, getLayerData render s layerNo mode)

/-- `PythonPSD::getBlend`.  `getMergedImage` is library code, abstracted as
`renderM s y x c`.  Not-loaded and missing-composite checks come first;
otherwise the canvas-sized buffer is copied out. -/
def getBlend (renderM : PSDState → Nat → Nat → Nat → Nat)
    (s : PSDState) : Except String PixelBuffer :=
  if s.isLoaded = false then
    .error "No PSD data loaded"
  else if s.model.imageData = false then
    .error "No composite image data available in the PSD file"
  else
    .ok (mkBuffer (renderM s) s.model.header.height.toNat
          s.model.header.width.toNat)

/-- The maximum-id scan at the top of `PythonPSD::assignAutoIds`
(`minId` in the source): fold over the layer list starting from −1,
keeping the larger id. -/
def maxLayerId (ls : List LayerInfo) : Int :=
  ls.foldl (fun acc lay => if acc < lay.layerId then lay.layerId else acc)
    (-1)

/-- The assignment loop of `PythonPSD::assignAutoIds`: walk the layer list
in order; every layer whose id is −1 receives `++baseId` (the incremented
running counter) and is counted.  Returns the rewritten list, the final
counter, and the number of layers assigned. -/
def assignLoop (base : Int) : List LayerInfo → List LayerInfo × Int × Nat
  | [] => ([], base, 0)
  | lay :: rest =>
    if lay.layerId = -1 then
      let r := assignLoop (base + 1) rest
      ({ lay with layerId := base + 1 } :: r.1, r.2.1, r.2.2 + 1)
    else
      let r := assignLoop base rest
      (lay :: r.1, r.2.1, r.2.2)

/-- `PythonPSD::assignAutoIds`: fails when nothing is loaded; otherwise
raises the caller's `baseId` to the maximum existing layer id when it is
below it, runs the assignment loop, and returns the updated handle state
with the count of assigned layers. -/
def assignAutoIds (s : PSDState) (baseId : Int) :
    Except String (PSDState × Nat) :=
  if s.isLoaded = false then
    .error "No PSD data loaded"
  else
    let m := maxLayerId s.model.layerList
    let base := if baseId < m then m else baseId
    let r := assignLoop base s.model.layerList
    .ok ({ s with model := { s.model with layerList := r.1 } }, r.2.2)

/-- A parser stub that always fails without touching the model. -/
def parseFail : List Nat → DocModel → Bool × Nat × DocModel :=
  fun _ m => (false, 0, m)

/-- A post-processing stub that always reports failure. -/
def processNone : DocModel → Bool × DocModel :=
  fun m => (false, m)

/-- A layer renderer stub (all bytes zero). -/
def renderZero : LayerInfo → ImageMode → Nat → Nat → Nat → Nat :=
  fun _ _ _ _ _ => 0

/-- A merged-image renderer stub (all bytes zero). -/
def renderMZero : PSDState → Nat → Nat → Nat → Nat :=
  fun _ _ _ _ => 0

/-- A handle holding a previously successfully loaded document (non-trivial
header, one layer, composite image and slice resource present). -/
def prevState : PSDState :=
  { isLoaded := true,
    model := { header := { width := 7, height := 9, channels := 3,
                           depth := 8, mode := 3 },
               layerList := [{ layerId := 5, width := 7, height := 9 }],
               imageData := true, sliceEnabled := true } }

/-- The spec's auto-id example document: three layers with ids
[−1, 5, −1]. -/
def c4State : PSDState :=
  { isLoaded := true,
    model := { layerList :=
      [{ layerId := -1 }, { layerId := 5 }, { layerId := -1 }] } }

/-- A loaded document whose single layer has no mask sub-record (mask
bounds zero) and mask default color 9. -/
def maskDegenState : PSDState :=
  { isLoaded := true,
    model := { layerList :=
      [{ width := 2, height := 2, layerMask := { defaultColor := 9 } }] } }

/-- A loaded document without a composite image block. -/
def noCompState : PSDState :=
  { isLoaded := true,
    model := { header := { width := 2, height := 3 }, imageData := false } }

/-- A loaded document with a composite image block. -/
def compState : PSDState :=
  { isLoaded := true,
    model := { header := { width := 2, height := 3 }, imageData := true } }

/-- A loaded document with one 1×1 layer. -/
def rawState : PSDState :=
  { isLoaded := true,
    model := { layerList := [{ width := 1, height := 1 }] } }

/-- A loaded document with one layer whose blend mode is vivid-light. -/
def vividState : PSDState :=
  { isLoaded := true,
    model := { layerList := [{ blendMode := .VIVID_LIGHT }] } }

/-- A loaded document with one zero-extent layer. -/
def zeroLayerState : PSDState :=
  { isLoaded := true,
    model := { layerList := [{ width := 0, height := 0 }] } }

theorem mkBuffer_data_length (f : Nat → Nat → Nat → Nat) (h w : Nat) :
    (mkBuffer f h w).data.length = h * w * 4 := by
  simp [mkBuffer, List.length_flatMap, Function.comp_def, List.map_const',
    List.sum_replicate, smul_eq_mul]
  ring

theorem assignLoop_length (b : Int) (xs : List LayerInfo) :
    ((assignLoop b xs).1).length = xs.length := by
  induction xs generalizing b with
  | nil => simp [assignLoop]
  | cons x rest ih =>
    by_cases hx : x.layerId = -1 <;> simp [assignLoop, hx, ih]

theorem assignLoop_count (b : Int) (xs : List LayerInfo) :
    (assignLoop b xs).2.2 = xs.countP (fun l => l.layerId == -1) := by
  induction xs generalizing b with
  | nil => simp [assignLoop]
  | cons x rest ih =>
    by_cases hx : x.layerId = -1 <;>
      simp [assignLoop, hx, ih, List.countP_cons]

theorem assignLoop_getD_ne (xs : List LayerInfo) (b : Int) (i : Nat)
    (hne : (xs.getD i dLay).layerId ≠ -1) :
    ((assignLoop b xs).1).getD i dLay = xs.getD i dLay := by
  induction xs generalizing b i with
  | nil => simp [assignLoop]
  | cons x rest ih =>
    cases i with
    | zero =>
      have hx : x.layerId ≠ -1 := by simpa using hne
      simp [assignLoop, hx]
    | succ i =>
      have hne2 : (rest.getD i dLay).layerId ≠ -1 := by simpa using hne
      by_cases hx : x.layerId = -1
      · simp only [assignLoop, if_pos hx, List.getD_cons_succ]
        exact ih _ _ hne2
      · simp only [assignLoop, if_neg hx, List.getD_cons_succ]
        exact ih _ _ hne2

theorem assignLoop_getD_eq (xs : List LayerInfo) (b : Int) (i : Nat)
    (hi : i < xs.length) (heq : (xs.getD i dLay).layerId = -1) :
    ((assignLoop b xs).1).getD i dLay =
      { xs.getD i dLay with
          layerId := b + 1 +
            (((xs.take i).countP (fun l => l.layerId == -1) : Nat) : Int) } := by
  induction xs generalizing b i with
  | nil => simp at hi
  | cons x rest ih =>
    cases i with
    | zero =>
      have hx : x.layerId = -1 := by simpa using heq
      simp [assignLoop, hx]
    | succ i =>
      have hi2 : i < rest.length := by simpa using hi
      have heq2 : (rest.getD i dLay).layerId = -1 := by simpa using heq
      by_cases hx : x.layerId = -1
      · have harith : b + 1 +
            ((List.countP (fun l => l.layerId == -1) (x :: rest.take i) : Nat) : Int)
            = (b + 1) + 1 +
            ((List.countP (fun l => l.layerId == -1) (rest.take i) : Nat) : Int) := by
          rw [List.countP_cons]
          simp only [hx, beq_self_eq_true, if_pos]
          push_cast
          ring
        simp only [assignLoop, if_pos hx, List.getD_cons_succ,
          List.take_succ_cons]
        rw [harith, ih (b + 1) i hi2 heq2]
      · have harith : List.countP (fun l => l.layerId == -1) (x :: rest.take i)
            = List.countP (fun l => l.layerId == -1) (rest.take i) := by
          rw [List.countP_cons]
          simp [hx]
        simp only [assignLoop, if_neg hx, List.getD_cons_succ,
          List.take_succ_cons]
        rw [harith, ih b i hi2 heq2]

theorem if_lt_eq_max (a b : Int) : (if a < b then b else a) = max a b := by
  rcases lt_or_ge a b with h | h
  · simp [h, max_eq_right h.le]
  · simp [not_lt.mpr h, max_eq_left h]

/-- A failed `loadFromBytes` always leaves the handle in the empty state:
whatever the parser and post-processing do, both failure paths end in
`clearData`. -/
theorem loadFromBytes_false_empty
    (parseFn : List Nat → DocModel → Bool × Nat × DocModel)
    (processFn : DocModel → Bool × DocModel)
    (s : PSDState) (bytes : List Nat)
    (hFail : (loadFromBytes parseFn processFn s bytes).2 = false) :
    (loadFromBytes parseFn processFn s bytes).1 = emptyState := by
  unfold loadFromBytes at hFail ⊢
  dsimp only at hFail ⊢
  by_cases hp : (parseFn bytes (clearData s).model).1 = true ∧
      (parseFn bytes (clearData s).model).2.1 = bytes.length
  · rw [if_pos hp] at hFail ⊢
    dsimp only at hFail ⊢
    by_cases hq : (processFn (parseFn bytes (clearData s).model).2.2).1 = true
    · rw [if_pos hq] at hFail
      simp at hFail
    · rw [if_neg hq]
      rfl
  · rw [if_neg hp] at hFail ⊢
    dsimp only at hFail ⊢
    rw [if_neg (show ¬((clearData s).isLoaded = true) by
      simp [clearData, emptyState])]
    rfl

/-- On an unloaded handle every per-layer request hits the guard. -/
theorem badReq_unloaded (s : PSDState) (h : s.isLoaded = false) (i : Int) :
    badReq s i = true := by
  simp [badReq, h]

/-- C1 counterexample: a handle with a previously successfully loaded
document (`prevState`: width-7 header, one layer, slice resource) on which
a subsequent `loadFromBytes` fails to parse.  The failed load returns
false and the prior header, layer list and resources are NOT observable
afterwards — the model has been reset to the empty state, refuting the
claim that the previously loaded document is left untouched. -/
theorem c1_counterexample :
    (loadFromBytes parseFail processNone prevState [0]).2 = false ∧
    (loadFromBytes parseFail processNone prevState [0]).1.model.layerList
      = [] ∧
    (loadFromBytes parseFail processNone prevState [0]).1.model.header.width
      = 0 ∧
    (loadFromBytes parseFail processNone prevState [0]).1.model.sliceEnabled
      = false ∧
    (loadFromBytes parseFail processNone prevState [0]).1.isLoaded = false ∧
    prevState.isLoaded = true ∧
    prevState.model.header.width = 7 ∧
    prevState.model.layerList ≠ [] ∧
    prevState.model.sliceEnabled = true := by
  refine ⟨rfl, rfl, rfl, rfl, rfl, rfl, rfl, ?_, rfl⟩
  decide

/-- C1 (amended): for every document handle on which a previous load
succeeded, a subsequent `loadFromBytes` whose parse fails returns false
and leaves the handle in the empty, unloaded state: the previously loaded
document is discarded (the load clears it up front), not preserved. -/
theorem loadFromBytes_failed_load_clears
    (parseFn : List Nat → DocModel → Bool × Nat × DocModel)
    (processFn : DocModel → Bool × DocModel)
    (s : PSDState) (bytes : List Nat)
    (_hPrev : s.isLoaded = true)
    (hFail : (loadFromBytes parseFn processFn s bytes).2 = false) :
    (loadFromBytes parseFn processFn s bytes).1 = emptyState ∧
    (loadFromBytes parseFn processFn s bytes).1.isLoaded = false := by
  have he := loadFromBytes_false_empty parseFn processFn s bytes hFail
  exact ⟨he, by rw [he]; rfl⟩

/-- Witness for the amended C1: the concrete previously loaded handle and
the always-failing parser. -/
theorem loadFromBytes_failed_load_clears_witness :
    prevState.isLoaded = true ∧
    (loadFromBytes parseFail processNone prevState [0]).2 = false ∧
    ((loadFromBytes parseFail processNone prevState [0]).1 = emptyState ∧
     (loadFromBytes parseFail processNone prevState [0]).1.isLoaded
       = false) :=
  ⟨rfl, rfl,
   loadFromBytes_failed_load_clears parseFail processNone prevState [0]
     rfl rfl⟩

/-- C2: for every input byte sequence on which `loadFromBytes` fails —
whatever combination of parser failure, cursor short of the end, or
post-processing failure caused it — the call returns false and the handle
is in the unloaded state with the partially built model fully discarded:
the state equals the empty state and every subsequent accessor behaves as
on an unloaded document. -/
theorem loadFromBytes_all_or_nothing
    (parseFn : List Nat → DocModel → Bool × Nat × DocModel)
    (processFn : DocModel → Bool × DocModel)
    (s : PSDState) (bytes : List Nat)
    (hFail : (loadFromBytes parseFn processFn s bytes).2 = false) :
    (loadFromBytes parseFn processFn s bytes).1 = emptyState ∧
    (loadFromBytes parseFn processFn s bytes).1.isLoaded = false ∧
    getBasicInfo (loadFromBytes parseFn processFn s bytes).1 = [] ∧
    (∀ i : Int,
      (getLayerType (loadFromBytes parseFn processFn s bytes).1 i).isOk
        = false ∧
      (getLayerName (loadFromBytes parseFn processFn s bytes).1 i).isOk
        = false ∧
      (getLayerInfo (loadFromBytes parseFn processFn s bytes).1 i).isOk
        = false) ∧
    (∀ (render : LayerInfo → ImageMode → Nat → Nat → Nat → Nat)
       (i : Int) (mode : String),
      (getLayerData render (loadFromBytes parseFn processFn s bytes).1 i
        mode).isOk = false) ∧
    (∀ renderM : PSDState → Nat → Nat → Nat → Nat,
      (getBlend renderM (loadFromBytes parseFn processFn s bytes).1).isOk
        = false) := by
  have he := loadFromBytes_false_empty parseFn processFn s bytes hFail
  rw [he]
  have hu : emptyState.isLoaded = false := rfl
  refine ⟨rfl, rfl, by simp [getBasicInfo, emptyState], ?_, ?_, ?_⟩
  · intro i
    refine ⟨?_, ?_, ?_⟩ <;>
      simp [Except.isOk, Except.toBool, getLayerType, getLayerName,
        getLayerInfo, badReq_unloaded _ hu i]
  · intro render i mode
    simp [Except.isOk, Except.toBool, getLayerData, badReq_unloaded _ hu i]
  · intro renderM
    simp [Except.isOk, Except.toBool, getBlend, emptyState]

/-- Witness for C2: the always-failing parser on the empty byte
sequence. -/
theorem loadFromBytes_all_or_nothing_witness :
    (loadFromBytes parseFail processNone emptyState []).2 = false ∧
    ((loadFromBytes parseFail processNone emptyState []).1 = emptyState ∧
     (loadFromBytes parseFail processNone emptyState []).1.isLoaded
       = false ∧
     getBasicInfo (loadFromBytes parseFail processNone emptyState []).1
       = [] ∧
     (∀ i : Int,
       (getLayerType (loadFromBytes parseFail processNone emptyState []).1
         i).isOk = false ∧
       (getLayerName (loadFromBytes parseFail processNone emptyState []).1
         i).isOk = false ∧
       (getLayerInfo (loadFromBytes parseFail processNone emptyState []).1
         i).isOk = false) ∧
     (∀ (render : LayerInfo → ImageMode → Nat → Nat → Nat → Nat)
        (i : Int) (mode : String),
       (getLayerData render
         (loadFromBytes parseFail processNone emptyState []).1 i mode).isOk
         = false) ∧
     (∀ renderM : PSDState → Nat → Nat → Nat → Nat,
       (getBlend renderM
         (loadFromBytes parseFail processNone emptyState []).1).isOk
         = false)) :=
  ⟨rfl, loadFromBytes_all_or_nothing parseFail processNone emptyState []
    rfl⟩

/-- C3 counterexample: a loaded document whose layer has blend mode
vivid-light.  `getLayerInfo` reports the raw blend mode correctly but the
symbolic name is `"normal"`, which does not name vivid-light — refuting
the claim that the name is correct for every mode in the 23-mode set. -/
theorem c3_counterexample :
    Except.map LayerInfoDict.type (getLayerInfo vividState 0) =
      .ok "normal" ∧
    Except.map LayerInfoDict.blend_mode (getLayerInfo vividState 0) =
      .ok BlendMode.VIVID_LIGHT ∧
    specBlendModeName BlendMode.VIVID_LIGHT = "vivid_light" ∧
    ("normal" : String) ≠ "vivid_light" :=
  ⟨rfl, rfl, rfl, by decide⟩

/-- C3 (amended): for every loaded document and valid layer index,
`getLayerInfo` reports the blend mode both as a symbolic name
(via `convBlendModeToString`) and as the raw blend-mode value; the
symbolic name correctly names the mode for the 14 modes the conversion
handles (normal, darken, multiply, color-burn, linear-burn, lighten,
screen, color-dodge, linear-dodge, overlay, soft-light, hard-light,
difference, exclusion), and every one of the remaining 9 modes
(vivid-light, linear-light, pin-light, hard-mix, dissolve, darker-color,
lighter-color, subtract, divide) is reported as `"normal"`. -/
theorem getLayerInfo_blend_reporting (s : PSDState) (i : Int)
    (h : badReq s i = false) :
    Except.map LayerInfoDict.type (getLayerInfo s i) =
      .ok (convBlendModeToString (layerAt s i).blendMode) ∧
    Except.map LayerInfoDict.blend_mode (getLayerInfo s i) =
      .ok (layerAt s i).blendMode ∧
    (∀ m ∈ handledBlendModes, convBlendModeToString m = specBlendModeName m) ∧
    (∀ m : BlendMode, m ∉ handledBlendModes →
      convBlendModeToString m = "normal") := by
  refine ⟨by simp [getLayerInfo, h, Except.map],
    by simp [getLayerInfo, h, Except.map], ?_, ?_⟩
  · intro m hm
    fin_cases hm <;> rfl
  · intro m hm
    cases m <;> first
      | rfl
      | exact absurd (by simp [handledBlendModes]) hm

/-- Witness for the amended C3 at the vivid-light document. -/
theorem getLayerInfo_blend_reporting_witness :
    badReq vividState 0 = false ∧
    (Except.map LayerInfoDict.type (getLayerInfo vividState 0) =
       .ok (convBlendModeToString (layerAt vividState 0).blendMode) ∧
     Except.map LayerInfoDict.blend_mode (getLayerInfo vividState 0) =
       .ok (layerAt vividState 0).blendMode ∧
     (∀ m ∈ handledBlendModes,
       convBlendModeToString m = specBlendModeName m) ∧
     (∀ m : BlendMode, m ∉ handledBlendModes →
       convBlendModeToString m = "normal")) :=
  ⟨rfl, getLayerInfo_blend_reporting vividState 0 rfl⟩

/-- C5: for every loaded document and valid layer index, requesting
`getLayerData` in `"mask"` mode on a layer whose mask is absent or has
zero width or height returns, without error, the 1×1×4 buffer whose
pixel is (defaultColor, defaultColor, defaultColor, 255). -/
theorem getLayerData_mask_degenerate
    (render : LayerInfo → ImageMode → Nat → Nat → Nat → Nat)
    (s : PSDState) (i : Int)
    (h1 : badReq s i = false)
    (h2 : (layerAt s i).layerMask.width ≤ 0 ∨
          (layerAt s i).layerMask.height ≤ 0) :
    getLayerData render s i "mask" =
      .ok ⟨1, 1, [(layerAt s i).layerMask.defaultColor,
                  (layerAt s i).layerMask.defaultColor,
                  (layerAt s i).layerMask.defaultColor, 255]⟩ := by
  simp [getLayerData, h1, h2]

/-- Witness for C5: a maskless layer with default color 9. -/
theorem getLayerData_mask_degenerate_witness :
    badReq maskDegenState 0 = false ∧
    ((layerAt maskDegenState 0).layerMask.width ≤ 0 ∨
     (layerAt maskDegenState 0).layerMask.height ≤ 0) ∧
    getLayerData renderZero maskDegenState 0 "mask" =
      .ok ⟨1, 1, [9, 9, 9, 255]⟩ := by
  refine ⟨rfl, by decide, ?_⟩
  simpa using getLayerData_mask_degenerate renderZero maskDegenState 0 rfl
    (by decide)

/-- C6: `getBlend` fails with the document-not-loaded error before a
successful decode, fails with the no-composite-image error when the
loaded file has no merged image block, and otherwise returns the
height×width×4 BGRA buffer at the header's canvas dimensions. -/
theorem getBlend_spec (renderM : PSDState → Nat → Nat → Nat → Nat) :
    (∀ s : PSDState, s.isLoaded = false →
      getBlend renderM s = .error "No PSD data loaded") ∧
    (∀ s : PSDState, s.isLoaded = true → s.model.imageData = false →
      getBlend renderM s =
        .error "No composite image data available in the PSD file") ∧
    (∀ s : PSDState, s.isLoaded = true → s.model.imageData = true →
      getBlend renderM s =
        .ok (mkBuffer (renderM s) s.model.header.height.toNat
              s.model.header.width.toNat) ∧
      (mkBuffer (renderM s) s.model.header.height.toNat
          s.model.header.width.toNat).height = s.model.header.height.toNat ∧
      (mkBuffer (renderM s) s.model.header.height.toNat
          s.model.header.width.toNat).width = s.model.header.width.toNat ∧
      (mkBuffer (renderM s) s.model.header.height.toNat
          s.model.header.width.toNat).data.length =
        s.model.header.height.toNat * s.model.header.width.toNat * 4) := by
  refine ⟨?_, ?_, ?_⟩
  · intro s h
    simp [getBlend, h]
  · intro s h1 h2
    simp [getBlend, h1, h2]
  · intro s h1 h2
    exact ⟨by simp [getBlend, h1, h2], rfl, rfl, mkBuffer_data_length _ _ _⟩

/-- Witness for C6: the unloaded handle, a loaded document without a
composite block, and a loaded 2×3 document with one. -/
theorem getBlend_spec_witness :
    getBlend renderMZero emptyState = .error "No PSD data loaded" ∧
    getBlend renderMZero noCompState =
      .error "No composite image data available in the PSD file" ∧
    (getBlend renderMZero compState =
      .ok (mkBuffer (renderMZero compState)
            compState.model.header.height.toNat
            compState.model.header.width.toNat) ∧
     (mkBuffer (renderMZero compState) compState.model.header.height.toNat
        compState.model.header.width.toNat).height =
       compState.model.header.height.toNat ∧
     (mkBuffer (renderMZero compState) compState.model.header.height.toNat
        compState.model.header.width.toNat).width =
       compState.model.header.width.toNat ∧
     (mkBuffer (renderMZero compState) compState.model.header.height.toNat
        compState.model.header.width.toNat).data.length =
       compState.model.header.height.toNat *
         compState.model.header.width.toNat * 4) :=
  ⟨(getBlend_spec renderMZero).1 emptyState rfl,
   (getBlend_spec renderMZero).2.1 noCompState rfl rfl,
   (getBlend_spec renderMZero).2.2 compState rfl rfl⟩

/-- C7 counterexample: a loaded document and the valid index 0, whose
layer has zero width and height.  `getLayerData` in `"raw"` mode fails
even though the document is loaded and the index is in range — refuting
the claim that the per-layer accessors fail only when the document is
unloaded or the index is out of range. -/
theorem c7_counterexample :
    badReq zeroLayerState 0 = false ∧
    (getLayerData renderZero zeroLayerState 0 "raw").isOk = false ∧
    getLayerData renderZero zeroLayerState 0 "raw" =
      .error "Layer has zero width or height" :=
  ⟨rfl, rfl, rfl⟩

/-- C7 (amended): `getLayerType`, `getLayerName` and `getLayerInfo` fail
exactly when the document is unloaded or the index is outside
[0, layer_count); `getLayerData` fails under that same guard and
additionally, in any mode other than `"mask"`, when the layer's width or
height is not positive (in `"mask"` mode a degenerate mask yields the
placeholder instead of an error).  The accessors modify no document
state: they are functions of the state returning only a result
(cf. `getLayerDataS`, whose state component is the input state). -/
theorem accessor_error_iff (s : PSDState) (i : Int) :
    ((getLayerType s i).isOk = false ↔ badReq s i = true) ∧
    ((getLayerName s i).isOk = false ↔ badReq s i = true) ∧
    ((getLayerInfo s i).isOk = false ↔ badReq s i = true) ∧
    (∀ (render : LayerInfo → ImageMode → Nat → Nat → Nat → Nat)
       (mode : String),
       ((getLayerData render s i mode).isOk = false ↔
         (badReq s i = true ∨ (mode ≠ "mask" ∧
           ((layerAt s i).width ≤ 0 ∨ (layerAt s i).height ≤ 0)))) ∧
       (getLayerDataS render s i mode).1 = s) := by
  by_cases hb : badReq s i = true
  · refine ⟨?_, ?_, ?_, ?_⟩
    · simp [Except.isOk, Except.toBool, getLayerType, hb]
    · simp [Except.isOk, Except.toBool, getLayerName, hb]
    · simp [Except.isOk, Except.toBool, getLayerInfo, hb]
    · intro render mode
      refine ⟨?_, rfl⟩
      simp [Except.isOk, Except.toBool, getLayerData, hb]
  · have hb2 : badReq s i = false := by simpa using hb
    refine ⟨?_, ?_, ?_, ?_⟩
    · simp [Except.isOk, Except.toBool, getLayerType, hb2]
    · simp only [getLayerName, hb2, Bool.false_eq_true, if_false]
      split <;> simp [Except.isOk, Except.toBool]
    · simp [Except.isOk, Except.toBool, getLayerInfo, hb2]
    · intro render mode
      refine ⟨?_, rfl⟩
      by_cases hm : mode = "mask"
      · subst hm
        by_cases hd : (layerAt s i).layerMask.width ≤ 0 ∨
            (layerAt s i).layerMask.height ≤ 0
        · simp [Except.isOk, Except.toBool, getLayerData, hb2, hd]
        · have hw : ¬ (layerAt s i).layerMask.width ≤ 0 :=
            fun hh => hd (Or.inl hh)
          have hh2 : ¬ (layerAt s i).layerMask.height ≤ 0 :=
            fun hh => hd (Or.inr hh)
          simp [Except.isOk, Except.toBool, getLayerData, hb2, hd, hw, hh2]
      · by_cases hr : mode = "raw"
        · subst hr
          by_cases hd : (layerAt s i).width ≤ 0 ∨ (layerAt s i).height ≤ 0
          · simp [Except.isOk, Except.toBool, getLayerData, hb2, hd]
          · simp [Except.isOk, Except.toBool, getLayerData, hb2, hd]
        · by_cases hd : (layerAt s i).width ≤ 0 ∨ (layerAt s i).height ≤ 0
          · simp [Except.isOk, Except.toBool, getLayerData, hb2, hm, hr, hd]
          · simp [Except.isOk, Except.toBool, getLayerData, hb2, hm, hr, hd]

/-- C8: on a loaded document with a valid index and positive layer
extent, two successive `"raw"` requests with no intervening load return
byte-identical buffers (and succeed); the first call leaves the handle
state unchanged, which is what makes the second call see the same
document. -/
theorem getLayerData_raw_idempotent
    (render : LayerInfo → ImageMode → Nat → Nat → Nat → Nat)
    (s : PSDState) (i : Int)
    (h1 : badReq s i = false)
    (h2 : 0 < (layerAt s i).width) (h3 : 0 < (layerAt s i).height) :
    (getLayerDataS render ((getLayerDataS render s i "raw").1) i "raw").2 =
      (getLayerDataS render s i "raw").2 ∧
    (getLayerDataS render s i "raw").1 = s ∧
    ((getLayerDataS render s i "raw").2).isOk = true := by
  refine ⟨rfl, rfl, ?_⟩
  simp [Except.isOk, Except.toBool, getLayerDataS, getLayerData, h1,
    not_le.mpr h2, not_le.mpr h3]

/-- Witness for C8: the 1×1-layer document. -/
theorem getLayerData_raw_idempotent_witness :
    badReq rawState 0 = false ∧ 0 < (layerAt rawState 0).width ∧
    0 < (layerAt rawState 0).height ∧
    ((getLayerDataS renderZero ((getLayerDataS renderZero rawState 0
        "raw").1) 0 "raw").2 =
       (getLayerDataS renderZero rawState 0 "raw").2 ∧
     (getLayerDataS renderZero rawState 0 "raw").1 = rawState ∧
     ((getLayerDataS renderZero rawState 0 "raw").2).isOk = true) :=
  ⟨rfl, by decide, by decide,
   getLayerData_raw_idempotent renderZero rawState 0 rfl (by decide)
     (by decide)⟩

/-- C9: for every mode string other than `"mask"` and `"raw"` (the empty
string and misspellings included), `getLayerData` behaves exactly as mode
`"maskedimage"`: the unrecognized string is not itself an error and the
result is the masked-image rendering at the layer's bounds. -/
theorem getLayerData_default_mode
    (render : LayerInfo → ImageMode → Nat → Nat → Nat → Nat)
    (s : PSDState) (i : Int) (mode : String)
    (h1 : mode ≠ "mask") (h2 : mode ≠ "raw") :
    getLayerData render s i mode = getLayerData render s i "maskedimage" := by
  simp [getLayerData, h1, h2,
    show ¬(("maskedimage" : String) = "mask") from by decide,
    show ¬(("maskedimage" : String) = "raw") from by decide]

/-- Witness for C9: the empty mode string on the 1×1-layer document. -/
theorem getLayerData_default_mode_witness :
    ("" : String) ≠ "mask" ∧ ("" : String) ≠ "raw" ∧
    getLayerData renderZero rawState 0 "" =
      getLayerData renderZero rawState 0 "maskedimage" :=
  ⟨by decide, by decide,
   getLayerData_default_mode renderZero rawState 0 "" (by decide)
     (by decide)⟩

/-- C10: on an unloaded handle `getBasicInfo` returns the empty dict
without error, each of the six read-only properties returns −1, and —
unlike these — every per-layer accessor fails. -/
theorem unloaded_accessors (s : PSDState) (h : s.isLoaded = false) :
    getBasicInfo s = [] ∧
    basicAttr s "width" = -1 ∧ basicAttr s "height" = -1 ∧
    basicAttr s "channels" = -1 ∧ basicAttr s "depth" = -1 ∧
    basicAttr s "color_mode" = -1 ∧ basicAttr s "layer_count" = -1 ∧
    (∀ i : Int, (getLayerType s i).isOk = false) ∧
    (∀ i : Int, (getLayerName s i).isOk = false) ∧
    (∀ i : Int, (getLayerInfo s i).isOk = false) ∧
    (∀ (render : LayerInfo → ImageMode → Nat → Nat → Nat → Nat)
       (i : Int) (mode : String),
       (getLayerData render s i mode).isOk = false) := by
  refine ⟨by simp [getBasicInfo, h], by simp [basicAttr, getBasicInfo, h],
    by simp [basicAttr, getBasicInfo, h], by simp [basicAttr, getBasicInfo, h],
    by simp [basicAttr, getBasicInfo, h], by simp [basicAttr, getBasicInfo, h],
    by simp [basicAttr, getBasicInfo, h], ?_, ?_, ?_, ?_⟩
  · intro i
    simp [Except.isOk, Except.toBool, getLayerType, badReq_unloaded s h i]
  · intro i
    simp [Except.isOk, Except.toBool, getLayerName, badReq_unloaded s h i]
  · intro i
    simp [Except.isOk, Except.toBool, getLayerInfo, badReq_unloaded s h i]
  · intro render i mode
    simp [Except.isOk, Except.toBool, getLayerData, badReq_unloaded s h i]

/-- Witness for C10 at the empty handle. -/
theorem unloaded_accessors_witness :
    emptyState.isLoaded = false ∧
    (getBasicInfo emptyState = [] ∧
     basicAttr emptyState "width" = -1 ∧
     basicAttr emptyState "height" = -1 ∧
     basicAttr emptyState "channels" = -1 ∧
     basicAttr emptyState "depth" = -1 ∧
     basicAttr emptyState "color_mode" = -1 ∧
     basicAttr emptyState "layer_count" = -1 ∧
     (∀ i : Int, (getLayerType emptyState i).isOk = false) ∧
     (∀ i : Int, (getLayerName emptyState i).isOk = false) ∧
     (∀ i : Int, (getLayerInfo emptyState i).isOk = false) ∧
     (∀ (render : LayerInfo → ImageMode → Nat → Nat → Nat → Nat)
        (i : Int) (mode : String),
        (getLayerData render emptyState i mode).isOk = false)) :=
  ⟨rfl, unloaded_accessors emptyState rfl⟩

/-- C4: for every loaded document and every base id, `assignAutoIds`
assigns sequential new ids to exactly the layers whose id is −1, in list
(file) order, starting one above the maximum of the supplied base id and
the current maximum layer id (the source's fold over the list,
initialised at −1, which agrees with the true maximum whenever any layer
has id −1), returns how many layers were assigned, and leaves a document
with no −1 ids entirely unchanged with return value 0. -/
theorem assignAutoIds_spec (s : PSDState) (baseId : Int)
    (hL : s.isLoaded = true) :
    ∃ s' : PSDState,
      assignAutoIds s baseId =
        .ok (s', s.model.layerList.countP (fun l => l.layerId == -1)) ∧
      s'.model.layerList.length = s.model.layerList.length ∧
      (∀ i : Nat, (s.model.layerList.getD i dLay).layerId ≠ -1 →
        s'.model.layerList.getD i dLay = s.model.layerList.getD i dLay) ∧
      (∀ i : Nat, i < s.model.layerList.length →
        (s.model.layerList.getD i dLay).layerId = -1 →
        s'.model.layerList.getD i dLay =
          { s.model.layerList.getD i dLay with
              layerId := max baseId (maxLayerId s.model.layerList) + 1 +
                (((s.model.layerList.take i).countP
                  (fun l => l.layerId == -1) : Nat) : Int) }) ∧
      ((∀ l ∈ s.model.layerList, l.layerId ≠ -1) → s' = s) := by
  refine ⟨{ s with model := { s.model with layerList :=
      (assignLoop (max baseId (maxLayerId s.model.layerList))
        s.model.layerList).1 } }, ?_, ?_, ?_, ?_, ?_⟩
  · simp [assignAutoIds, hL, if_lt_eq_max, assignLoop_count]
  · simpa using assignLoop_length _ _
  · intro i hne
    simpa using assignLoop_getD_ne _ _ _ hne
  · intro i hi heq
    simpa using assignLoop_getD_eq _ _ _ hi heq
  · intro hall
    have hlist : (assignLoop (max baseId (maxLayerId s.model.layerList))
        s.model.layerList).1 = s.model.layerList := by
      apply List.ext_getElem (assignLoop_length _ _)
      intro i h1 h2
      have hne : (s.model.layerList.getD i dLay).layerId ≠ -1 := by
        rw [List.getD_eq_getElem _ _ h2]
        exact hall _ (List.getElem_mem h2)
      have := assignLoop_getD_ne s.model.layerList
        (max baseId (maxLayerId s.model.layerList)) i hne
      rwa [List.getD_eq_getElem _ _ h1, List.getD_eq_getElem _ _ h2] at this
    simp [hlist]

/-- Witness for C4: the spec's example, `assignAutoIds` with base id 0 on
layer ids [−1, 5, −1] (the two unassigned layers receive 6 and 7 and the
count is 2, per the positional description instantiated here). -/
theorem assignAutoIds_spec_witness :
    c4State.isLoaded = true ∧
    (∃ s' : PSDState,
      assignAutoIds c4State 0 =
        .ok (s', c4State.model.layerList.countP (fun l => l.layerId == -1)) ∧
      s'.model.layerList.length = c4State.model.layerList.length ∧
      (∀ i : Nat, (c4State.model.layerList.getD i dLay).layerId ≠ -1 →
        s'.model.layerList.getD i dLay =
          c4State.model.layerList.getD i dLay) ∧
      (∀ i : Nat, i < c4State.model.layerList.length →
        (c4State.model.layerList.getD i dLay).layerId = -1 →
        s'.model.layerList.getD i dLay =
          { c4State.model.layerList.getD i dLay with
              layerId := max 0 (maxLayerId c4State.model.layerList) + 1 +
                (((c4State.model.layerList.take i).countP
                  (fun l => l.layerId == -1) : Nat) : Int) }) ∧
      ((∀ l ∈ c4State.model.layerList, l.layerId ≠ -1) → s' = c4State)) :=
  ⟨rfl, assignAutoIds_spec c4State 0 rfl⟩
